import Mathlib

/-!
Shallow embedding of `src/agents/parallel_task_scheduler.py` (Droid CLI parallel
task scheduler) and verification of the frozen claims about it.

Conventions of the embedding:
* Python dicts are insertion-ordered association lists `List (String × α)`;
  `dictLookup`, `dictInsert`, `dictUpdate` model `d.get`, `d[k] = v` and in-place
  mutation of an existing value.
* `datetime` values are rational timestamps (seconds); `datetime.now()` becomes an
  explicit `now : ℚ` parameter, and the `strftime` text used inside task ids is an
  explicit opaque string parameter.
* Machine floats of the source are modelled as exact rationals `ℚ`.
* Fallible code paths (Python exceptions raised by the source, e.g. the reference
  to the nonexistent enum member `TaskStatus.SUCCESS` on line 746) are modelled
  with `Except Unit` or, where an exception escapes after the interesting
  mutations already happened, by returning the mutated state reached at the point
  of the raise (documented at each definition).
-/

/-- Association-list lookup, modelling a Python dict read (`d.get(k)` / `k in d`). -/
def dictLookup {α : Type} : List (String × α) → String → Option α
  | [], _ => none
  | p :: rest, k => if p.1 = k then some p.2 else dictLookup rest k

/-- Association-list write, modelling Python dict assignment `d[k] = v`: replaces
the first binding of `k` in place, otherwise appends; insertion order preserved. -/
def dictInsert {α : Type} : List (String × α) → String → α → List (String × α)
  | [], k, v => [(k, v)]
  | p :: rest, k, v => if p.1 = k then (k, v) :: rest else p :: dictInsert rest k v

/-- Association-list modification of the value bound to `k` (no effect if absent),
modelling in-place mutation of an object stored in a dict. -/
def dictUpdate {α : Type} (m : List (String × α)) (k : String) (f : α → α) :
    List (String × α) :=
  m.map (fun p => if p.1 = k then (p.1, f p.2) else p)

/-- Task status enumeration (`TaskStatus`, lines 34-40 of the source). The member
`SUCCESS` referenced on line 746 does not exist and is modelled as an exception. -/
inductive TaskStatus where
  | pending
  | running
  | completed
  | failed
  | cancelled
deriving DecidableEq, Repr

/-- Agent status enumeration (`AgentStatus`, lines 68-73 of the source). -/
inductive AgentStatus where
  | idle
  | busy
  | error
  | offline
deriving DecidableEq, Repr

/-- A parallel task (`ParallelTask` dataclass, lines 42-66). `__post_init__`
replaces `None` dependencies / resource requirements by empty containers; every
constructor call in the embedded code passes explicit values, so the fields are
stored already-defaulted. Timestamps are rational seconds. -/
structure ParallelTask where
  task_id : String
  task_type : String
  command : String
  args : List String
  kwargs : List (String × String)
  priority : Int
  status : TaskStatus
  created_at : ℚ
  started_at : Option ℚ := none
  completed_at : Option ℚ := none
  result : Option String := none
  error : Option String := none
  dependencies : List String := []
  max_wait_time : ℚ := 604800
  resource_requirements : List (String × ℚ) := []
deriving DecidableEq, Repr

/-- One entry of an agent's task history (the dict appended on lines 492-497).
The wall-clock `timestamp` string is omitted: no embedded operation reads it. -/
structure HistEntry where
  execution_time : ℚ
  success : Bool
  task_type : Option String
deriving DecidableEq, Repr

/-- A registered agent (`ParallelAgent` dataclass, lines 75-108), with the
`__post_init__` `None`-defaults applied by `ParallelAgent.make` below. -/
structure ParallelAgent where
  agent_id : String
  agent_type : String
  status : AgentStatus
  current_task : Option String := none
  supported_task_types : List String
  max_concurrent_tasks : Nat := 1
  performance_metrics : List (String × ℚ)
  last_activity : ℚ
  task_history : List HistEntry
  resource_usage : List (String × ℚ)
deriving DecidableEq, Repr

/-- Constructor plus `__post_init__` (lines 89-108): a `None` argument for
`supported_task_types`, `performance_metrics`, `task_history` or `resource_usage`
is replaced by the documented default. Note that an *empty* metrics dict is NOT
`None` and is therefore kept as-is. -/
def ParallelAgent.make (agent_id agent_type : String) (status : AgentStatus)
    (current_task : Option String) (supported : Option (List String))
    (maxConcurrent : Nat) (metrics : Option (List (String × ℚ)))
    (last_activity : ℚ) (history : Option (List HistEntry))
    (usage : Option (List (String × ℚ))) : ParallelAgent :=
  { agent_id := agent_id
    agent_type := agent_type
    status := status
    current_task := current_task
    supported_task_types := supported.getD []
    max_concurrent_tasks := maxConcurrent
    performance_metrics := metrics.getD
      [("response_time", 1.0), ("success_rate", 1.0), ("efficiency", 1.0)]
    last_activity := last_activity
    task_history := history.getD []
    resource_usage := usage.getD
      [("cpu_percent", 0.0), ("memory_percent", 0.0), ("disk_io_percent", 0.0)] }

/-- Snapshot returned by `get_memory_stats` (lines 120-132), taken once at pool
construction; `psutil` readings become explicit data. -/
structure MemoryStats where
  total : ℚ
  available : ℚ
  used : ℚ
  percent : ℚ
deriving DecidableEq, Repr

/-- The resource pool (`ResourcePool`, lines 110-162). `available_workers` is a
natural number: the source only decrements it under a positivity guard. -/
structure ResourcePool where
  max_workers : Nat
  max_memory_percent : ℚ := 80
  available_workers : Nat
  allocated_memory : ℚ := 0
  memory_stats : MemoryStats
deriving DecidableEq, Repr

/-- Memory/worker admission check (`ResourcePool.can_allocate_task`, lines
134-146): requires a free worker and that current used-memory percentage plus the
requested `memory_mb` (default 10), converted MB to a percentage of total memory,
stays at or below `max_memory_percent`. -/
def can_allocate_task (pool : ResourcePool) (reqs : List (String × ℚ)) : Bool :=
  if pool.available_workers ≤ 0 then false
  else if pool.memory_stats.used / pool.memory_stats.total * 100 +
      ((dictLookup reqs "memory_mb").getD 10) * 1024 * 1024 /
        pool.memory_stats.total * 100 ≤ pool.max_memory_percent then true
  else false

/-- Worker allocation (`ResourcePool.allocate_resources`, lines 148-156): if a
worker is free, take it and mark the task Running; otherwise report failure. The
task lives in the scheduler's task table, so the mutation is returned as the new
pool paired with the status effect applied by the caller through `dictUpdate`. -/
def allocate_resources (pool : ResourcePool) : ResourcePool × Bool :=
  if 0 < pool.available_workers then
    ({ pool with available_workers := pool.available_workers - 1 }, true)
  else (pool, false)

/-- Worker release (`ResourcePool.release_resources`, lines 158-162): increments
the worker count unconditionally and promotes a Running task to Completed. -/
def release_resources (pool : ResourcePool) (t : ParallelTask) :
    ResourcePool × ParallelTask :=
  ({ pool with available_workers := pool.available_workers + 1 },
    if t.status = TaskStatus.running then { t with status := TaskStatus.completed }
    else t)

/-- Concrete resource pool used to witness claim C5: 100 MiB of memory, half
used, four free workers, default 80 percent ceiling. -/
def c5pool : ResourcePool :=
  { max_workers := 4
    available_workers := 4
    memory_stats := { total := 104857600, available := 52428800,
                      used := 52428800, percent := 50 } }

/-- Claim C5: for every resource-requirements map, `can_allocate_task` returns
true iff `available_workers > 0` and the projected memory usage - the current
used-memory percentage plus the map's `memory_mb` entry (default 10) converted to
a percentage of total system memory - does not exceed `max_memory_percent`. The
hypothesis records that the source divides by the total memory reading, which is
positive whenever `psutil` is importable. -/
theorem c5_can_allocate_iff (pool : ResourcePool) (reqs : List (String × ℚ))
    (_htotal : 0 < pool.memory_stats.total) :
    can_allocate_task pool reqs = true ↔
      (0 < pool.available_workers ∧
        pool.memory_stats.used / pool.memory_stats.total * 100 +
          ((dictLookup reqs "memory_mb").getD 10) * 1024 * 1024 /
            pool.memory_stats.total * 100 ≤ pool.max_memory_percent) := by
  unfold can_allocate_task
  split_ifs with h1 h2
  · simp only [Bool.false_eq_true, false_iff, not_and]
    intro h0
    omega
  · simp only [true_iff]
    exact ⟨by omega, h2⟩
  · simp only [false_iff, not_and]
    intro _
    exact h2

/-- Witness for C5 at a concrete pool and an empty requirements map. -/
theorem c5_can_allocate_iff_witness : can_allocate_task c5pool [] = true :=
  (c5_can_allocate_iff c5pool [] (by norm_num [c5pool])).mpr
    ⟨by norm_num [c5pool], by norm_num [c5pool, dictLookup]⟩

/-- Default performance-metrics dict written by `__post_init__` (lines 93-98) and
by the reset at the top of `update_agent_metrics` (lines 463-468). -/
def defaultMetrics : List (String × ℚ) :=
  [("response_time", 1.0), ("success_rate", 1.0), ("efficiency", 1.0)]

/-- Dependency check (`are_dependencies_met`, lines 742-748) against the task
table. For each dependency id in list order: a missing record makes the guard
`not dep_task` true, so the function returns False; for a present record the
second disjunct evaluates the literal list containing `TaskStatus.SUCCESS`, a
member the `TaskStatus` enum does not declare, so Python raises `AttributeError`
before any comparison happens (modelled as `.error ()`). -/
def are_dependencies_met (table : List (String × ParallelTask)) :
    List String → Except Unit Bool
  | [] => .ok true
  | d :: _ =>
    match dictLookup table d with
    | none => .ok false
    | some _ => .error ()

/-- Convenience builder for concrete task records used in witnesses. -/
def mkTask (id ty : String) (prio : Int) (st : TaskStatus) (created : ℚ)
    (deps : List String) : ParallelTask :=
  { task_id := id, task_type := ty, command := "", args := [], kwargs := [],
    priority := prio, status := st, created_at := created, dependencies := deps }

/-- Task table used in the C3 counterexample: it holds only the dependent task
itself, whose single dependency id has no record. -/
def c3table : List (String × ParallelTask) :=
  [("t", mkTask "t" "file_operations" 0 TaskStatus.pending 0 ["ghost"])]

/-- Counterexample to claim C3: for a task whose only dependency id `ghost` is
absent from the TaskTable, `are_dependencies_met` returns False, not True as the
claim states. -/
theorem c3_missing_dependency_counterexample :
    are_dependencies_met c3table ["ghost"] = .ok false ∧
      (Except.ok false : Except Unit Bool) ≠ .ok true := by
  constructor
  · simp [are_dependencies_met, c3table, dictLookup]
  · simp

/-- Claim C3 (amended): `are_dependencies_met` returns True iff the dependency
list is empty; a first dependency id with no record in the TaskTable makes it
return False (so a task whose only dependency id is absent gets False, not
True); and when the first dependency id does have a record, the status test
evaluates the nonexistent member `TaskStatus.SUCCESS` and the call raises
`AttributeError`. -/
theorem c3_dependency_check_characterization (table : List (String × ParallelTask))
    (deps : List String) :
    (are_dependencies_met table deps = .ok true ↔ deps = []) ∧
    (∀ d rest, deps = d :: rest → dictLookup table d = none →
      are_dependencies_met table deps = .ok false) ∧
    (∀ d rest t, deps = d :: rest → dictLookup table d = some t →
      are_dependencies_met table deps = .error ()) := by
  refine ⟨?_, ?_, ?_⟩
  · cases deps with
    | nil => simp [are_dependencies_met]
    | cons d rest =>
      simp only [are_dependencies_met]
      cases h : dictLookup table d <;> simp
  · intro d rest hd hnone
    subst hd
    simp [are_dependencies_met, hnone]
  · intro d rest t hd hsome
    subst hd
    simp [are_dependencies_met, hsome]

/-- Witness for the amended C3 at concrete inputs: the empty dependency list is
satisfied, and a dependency on an id missing from the empty table is not. -/
theorem c3_dependency_check_characterization_witness :
    are_dependencies_met [] ([] : List String) = .ok true ∧
      are_dependencies_met [] ["g"] = .ok false := by
  constructor
  · exact (c3_dependency_check_characterization [] []).1.mpr rfl
  · exact (c3_dependency_check_characterization [] ["g"]).2.1 "g" [] rfl rfl

/-- Lookup after a write at the same key sees the written value. -/
theorem dictLookup_dictInsert_self {α : Type} (m : List (String × α)) (k : String)
    (v : α) : dictLookup (dictInsert m k v) k = some v := by
  induction m with
  | nil => simp [dictInsert, dictLookup]
  | cons p rest ih =>
    by_cases h : p.1 = k
    · simp [dictInsert, dictLookup, h]
    · simp [dictInsert, dictLookup, h, ih]

/-- Lookup after a write at a different key is unchanged. -/
theorem dictLookup_dictInsert_ne {α : Type} (m : List (String × α)) (k k' : String)
    (v : α) (h : k ≠ k') : dictLookup (dictInsert m k v) k' = dictLookup m k' := by
  induction m with
  | nil => simp [dictInsert, dictLookup, h]
  | cons p rest ih =>
    by_cases hp : p.1 = k
    · simp [dictInsert, dictLookup, hp, h]
    · by_cases hp' : p.1 = k'
      · simp [dictInsert, dictLookup, hp, hp', Ne.symm h]
      · simp [dictInsert, dictLookup, hp, hp', ih]

/-- History append plus trim (lines 492-501): push the entry, keep the last 50. -/
def appendHistory (h : List HistEntry) (e : HistEntry) : List HistEntry :=
  if 50 < (h ++ [e]).length then (h ++ [e]).drop ((h ++ [e]).length - 50)
  else h ++ [e]

/-- The `task_type` value stored in a history entry (line 496): the Python
expression `agent.current_task and agent.current_task[0]` yields `None` for
`None`, the empty string for an empty string, and the first character otherwise. -/
def currentTaskTag : Option String → Option String
  | none => none
  | some s => if s = "" then some "" else some (s.take 1)

/-- Metrics-dict evolution of `update_agent_metrics` after the empty-dict reset
(lines 470-501 of the source), on the metrics dict alone. Control flow: the
response-time EMA `old*0.8 + t*0.2` is applied only when the old value is
positive (lines 470-475); the success-rate EMA `old*0.9 + (1 or 0)*0.1` likewise
(lines 477-482); the efficiency computation on line 485 then evaluates the
undefined name `response_time` whenever `old_response_time > 0`, raising
`NameError`; the dict mutations already made stay committed (Python mutates in
place), so this embedding returns the dict as updated up to that point, paired
with `false` to record that the history append on lines 492-501 was never
reached. A dict missing the `response_time`, `success_rate` or `efficiency` key
raises `KeyError` at the corresponding read, again keeping prior mutations.
Only when `old_response_time <= 0` does the function run to the end: efficiency
is smoothed towards 1.0 and the flag is `true`. -/
def updateMetricsCore (m0 : List (String × ℚ)) (t : ℚ) (s : Bool) :
    List (String × ℚ) × Bool :=
  match dictLookup m0 "response_time" with
  | none => (m0, false)
  | some old_rt =>
    let m1 := if 0 < old_rt then
        dictInsert m0 "response_time" (old_rt * 0.8 + t * 0.2)
      else m0
    match dictLookup m1 "success_rate" with
    | none => (m1, false)
    | some old_sr =>
      let m2 := if 0 < old_sr then
          dictInsert m1 "success_rate"
            (old_sr * 0.9 + (if s then (1 : ℚ) else 0) * 0.1)
        else m1
      if 0 < old_rt then (m2, false)
      else
        match dictLookup m2 "efficiency" with
        | none => (m2, false)
        | some old_eff =>
          (dictInsert m2 "efficiency" (old_eff * 0.8 + 1.0 * 0.2), true)

/-- Metric update (`update_agent_metrics`, lines 461-501): an empty metrics dict
is first reset to the defaults (lines 463-468), then the dict evolves by
`updateMetricsCore`; the history entry of lines 492-497 is appended (and trimmed
to 50) only when execution reached it, i.e. when no exception was raised. -/
def update_agent_metrics (a : ParallelAgent) (execution_time : ℚ) (success : Bool) :
    ParallelAgent :=
  let r := updateMetricsCore
    (if a.performance_metrics = [] then defaultMetrics else a.performance_metrics)
    execution_time success
  { a with
    performance_metrics := r.1
    task_history := if r.2 then
        appendHistory a.task_history
          ⟨execution_time, success, currentTaskTag a.current_task⟩
      else a.task_history }

/-- A sequence of `update_agent_metrics` calls applied in order. -/
def applyMetricCalls (a : ParallelAgent) (calls : List (ℚ × Bool)) : ParallelAgent :=
  calls.foldl (fun ag c => update_agent_metrics ag c.1 c.2) a

/-- The success rate stored in the default metrics dict is 1. -/
theorem defaultMetrics_sr : dictLookup defaultMetrics "success_rate" = some 1 := by
  simp only [defaultMetrics, dictLookup]
  rw [if_neg (by decide : ¬(("response_time" : String) = "success_rate"))]
  rw [if_pos trivial]
  norm_num

/-- Core metric evolution keeps the stored success rate inside [0, 1] whenever it
was inside [0, 1] before. -/
theorem updateMetricsCore_sr_bounds (m0 : List (String × ℚ)) (t : ℚ) (s : Bool)
    (h : ∀ v, dictLookup m0 "success_rate" = some v → 0 ≤ v ∧ v ≤ 1) :
    ∀ v, dictLookup (updateMetricsCore m0 t s).1 "success_rate" = some v →
      0 ≤ v ∧ v ≤ 1 := by
  simp only [updateMetricsCore]
  rcases hrt : dictLookup m0 "response_time" with _ | old_rt
  · exact h
  · set M1 := if 0 < old_rt then
        dictInsert m0 "response_time" (old_rt * 0.8 + t * 0.2)
      else m0 with hM1
    have hm1sr : dictLookup M1 "success_rate" = dictLookup m0 "success_rate" := by
      rw [hM1]
      split_ifs with hpos
      · exact dictLookup_dictInsert_ne _ _ _ _ (by decide)
      · rfl
    rcases hsr : dictLookup M1 "success_rate" with _ | old_sr
    · simp only [hsr]
      intro v hv
      exact Option.noConfusion hv
    · simp only [hsr]
      have hold : 0 ≤ old_sr ∧ old_sr ≤ 1 := by
        apply h
        rw [← hm1sr]
        exact hsr
      set M2 := if 0 < old_sr then
          dictInsert M1 "success_rate"
            (old_sr * 0.9 + (if s then (1 : ℚ) else 0) * 0.1)
        else M1 with hM2
      have hm2sr : ∀ w, dictLookup M2 "success_rate" = some w →
          0 ≤ w ∧ w ≤ 1 := by
        intro w hw
        rw [hM2] at hw
        by_cases hpos : 0 < old_sr
        · rw [if_pos hpos, dictLookup_dictInsert_self] at hw
          have hweq : old_sr * 0.9 + (if s then (1 : ℚ) else 0) * 0.1 = w := by
            simpa using hw
          cases s <;> norm_num at hweq <;> constructor <;>
            linarith [hold.1, hold.2]
        · rw [if_neg hpos, hsr] at hw
          have hweq : old_sr = w := by simpa using hw
          rw [← hweq]
          exact hold
      by_cases hrtpos : 0 < old_rt
      · rw [if_pos hrtpos]
        exact hm2sr
      · rw [if_neg hrtpos]
        rcases heff : dictLookup M2 "efficiency" with _ | old_eff
        · simp only [heff]
          exact hm2sr
        · simp only [heff]
          intro v hv
          have hv2 : dictLookup (dictInsert M2 "efficiency"
              (old_eff * 0.8 + 1.0 * 0.2)) "success_rate" = some v := hv
          rw [dictLookup_dictInsert_ne _ _ _ _ (by decide)] at hv2
          exact hm2sr v hv2

/-- One `update_agent_metrics` call keeps the stored success rate inside [0, 1]
whenever it was inside [0, 1] before the call (an empty metrics dict is reset to
the defaults first, whose success rate is 1). -/
theorem update_agent_metrics_sr_bounds (a : ParallelAgent) (t : ℚ) (s : Bool)
    (h : ∀ v, dictLookup a.performance_metrics "success_rate" = some v →
      0 ≤ v ∧ v ≤ 1) :
    ∀ v, dictLookup (update_agent_metrics a t s).performance_metrics
      "success_rate" = some v → 0 ≤ v ∧ v ≤ 1 := by
  show ∀ v, dictLookup (updateMetricsCore
    (if a.performance_metrics = [] then defaultMetrics else a.performance_metrics)
    t s).1 "success_rate" = some v → 0 ≤ v ∧ v ≤ 1
  apply updateMetricsCore_sr_bounds
  by_cases hempty : a.performance_metrics = []
  · rw [if_pos hempty]
    intro v hv
    rw [defaultMetrics_sr] at hv
    have hv2 : (1 : ℚ) = v := by simpa using hv
    rw [← hv2]
    norm_num
  · rw [if_neg hempty]
    exact h

/-- Claim C7: for every agent whose success_rate metric initially lies in [0, 1],
after any finite number of `update_agent_metrics` calls with non-negative
execution times and arbitrary success flags, the success_rate metric remains
within [0, 1]. -/
theorem c7_success_rate_bounded (a : ParallelAgent) (calls : List (ℚ × Bool))
    (htimes : ∀ c ∈ calls, 0 ≤ c.1)
    (h : ∀ v, dictLookup a.performance_metrics "success_rate" = some v →
      0 ≤ v ∧ v ≤ 1) :
    ∀ v, dictLookup (applyMetricCalls a calls).performance_metrics
      "success_rate" = some v → 0 ≤ v ∧ v ≤ 1 := by
  induction calls generalizing a with
  | nil => exact h
  | cons c rest ih =>
    exact ih (update_agent_metrics a c.1 c.2)
      (fun d hd => htimes d (List.mem_cons_of_mem c hd))
      (update_agent_metrics_sr_bounds a c.1 c.2 h)

/-- Concrete agent used to witness claims C7 and C4 style evaluations. -/
def c7agent : ParallelAgent :=
  { agent_id := "w7", agent_type := "file_system", status := AgentStatus.idle,
    supported_task_types := ["file_operations"],
    performance_metrics :=
      [("response_time", 1), ("success_rate", 1), ("efficiency", 1)],
    last_activity := 0, task_history := [], resource_usage := [] }

/-- Witness for C7: one successful call of execution time 2 on `c7agent` leaves
a success rate of 1, which the theorem confirms lies in [0, 1]. -/
theorem c7_success_rate_bounded_witness : 0 ≤ (1 : ℚ) ∧ (1 : ℚ) ≤ 1 :=
  c7_success_rate_bounded c7agent [(2, true)] (by norm_num)
    (by
      intro v hv
      norm_num [c7agent, dictLookup] at hv
      rw [← hv]
      norm_num) 1
    (by
      simp only [applyMetricCalls, List.foldl, update_agent_metrics,
        updateMetricsCore, c7agent, dictLookup, dictInsert, String.reduceEq,
        reduceIte]
      norm_num)

/-- A successful lookup means the dict is not empty. -/
theorem dictLookup_ne_nil {α : Type} {m : List (String × α)} {k : String} {v : α}
    (h : dictLookup m k = some v) : m ≠ [] := by
  intro heq
  subst heq
  exact Option.noConfusion h

/-- Core metric evolution never changes a zero response time: the EMA branch is
guarded by positivity of the old value. -/
theorem updateMetricsCore_rt_zero (m0 : List (String × ℚ)) (t : ℚ) (s : Bool)
    (h : dictLookup m0 "response_time" = some 0) :
    dictLookup (updateMetricsCore m0 t s).1 "response_time" = some 0 := by
  simp only [updateMetricsCore, h]
  rw [if_neg (by norm_num : ¬(0 : ℚ) < 0)]
  rcases hsr : dictLookup m0 "success_rate" with _ | old_sr
  · simp only [hsr]
    exact h
  · simp only [hsr]
    set M2 := if 0 < old_sr then
        dictInsert m0 "success_rate"
          (old_sr * 0.9 + (if s then (1 : ℚ) else 0) * 0.1)
      else m0 with hM2
    have hm2rt : dictLookup M2 "response_time" = some 0 := by
      rw [hM2]
      by_cases hpos : 0 < old_sr
      · rw [if_pos hpos, dictLookup_dictInsert_ne _ _ _ _ (by decide)]
        exact h
      · rw [if_neg hpos]
        exact h
    rw [if_neg (by norm_num : ¬(0 : ℚ) < 0)]
    rcases heff : dictLookup M2 "efficiency" with _ | old_eff
    · simp only [heff]
      exact hm2rt
    · simp only [heff]
      rw [dictLookup_dictInsert_ne _ _ _ _ (by decide)]
      exact hm2rt

/-- Core metric evolution never changes a zero success rate: the EMA branch is
guarded by positivity of the old value. -/
theorem updateMetricsCore_sr_zero (m0 : List (String × ℚ)) (t : ℚ) (s : Bool)
    (h : dictLookup m0 "success_rate" = some 0) :
    dictLookup (updateMetricsCore m0 t s).1 "success_rate" = some 0 := by
  simp only [updateMetricsCore]
  rcases hrt : dictLookup m0 "response_time" with _ | old_rt
  · exact h
  · set M1 := if 0 < old_rt then
        dictInsert m0 "response_time" (old_rt * 0.8 + t * 0.2)
      else m0 with hM1
    have hm1sr : dictLookup M1 "success_rate" = some 0 := by
      rw [hM1]
      split_ifs with hpos
      · rw [dictLookup_dictInsert_ne _ _ _ _ (by decide)]
        exact h
      · exact h
    simp only [hm1sr]
    rw [if_neg (by norm_num : ¬(0 : ℚ) < 0)]
    by_cases hrtpos : 0 < old_rt
    · rw [if_pos hrtpos]
      exact hm1sr
    · rw [if_neg hrtpos]
      rcases heff : dictLookup M1 "efficiency" with _ | old_eff
      · simp only [heff]
        exact hm1sr
      · simp only [heff]
        rw [dictLookup_dictInsert_ne _ _ _ _ (by decide)]
        exact hm1sr

/-- Claim C10: a stored response_time of 0, and likewise a stored success_rate of
0, is absorbing under `update_agent_metrics`: the EMA update of each metric is
applied only when its previous value is strictly positive, so the call leaves a
zero value unchanged regardless of the execution time and success flag. -/
theorem c10_zero_metric_absorbing (a : ParallelAgent) (t : ℚ) (s : Bool) :
    (dictLookup a.performance_metrics "response_time" = some 0 →
      dictLookup (update_agent_metrics a t s).performance_metrics
        "response_time" = some 0) ∧
    (dictLookup a.performance_metrics "success_rate" = some 0 →
      dictLookup (update_agent_metrics a t s).performance_metrics
        "success_rate" = some 0) := by
  constructor
  · intro h
    show dictLookup (updateMetricsCore
      (if a.performance_metrics = [] then defaultMetrics
        else a.performance_metrics) t s).1 "response_time" = some 0
    rw [if_neg (dictLookup_ne_nil h)]
    exact updateMetricsCore_rt_zero a.performance_metrics t s h
  · intro h
    show dictLookup (updateMetricsCore
      (if a.performance_metrics = [] then defaultMetrics
        else a.performance_metrics) t s).1 "success_rate" = some 0
    rw [if_neg (dictLookup_ne_nil h)]
    exact updateMetricsCore_sr_zero a.performance_metrics t s h

/-- Concrete agent with both metrics stuck at zero, for the C10 witness. -/
def c10agent : ParallelAgent :=
  { agent_id := "w10", agent_type := "file_system", status := AgentStatus.idle,
    supported_task_types := ["file_operations"],
    performance_metrics := [("response_time", 0), ("success_rate", 0)],
    last_activity := 0, task_history := [], resource_usage := [] }

/-- Witness for C10: on an agent whose response_time and success_rate are both 0,
an update call with execution time 7 and success true changes neither metric. -/
theorem c10_zero_metric_absorbing_witness :
    dictLookup (update_agent_metrics c10agent 7 true).performance_metrics
        "response_time" = some 0 ∧
      dictLookup (update_agent_metrics c10agent 7 true).performance_metrics
        "success_rate" = some 0 :=
  ⟨(c10_zero_metric_absorbing c10agent 7 true).1
      (by norm_num [c10agent, dictLookup]),
    (c10_zero_metric_absorbing c10agent 7 true).2
      (by norm_num [c10agent, dictLookup])⟩

/-- Agent registration record (the dict consumed by `register_agent`); optional
fields model dict keys that may be absent and are read with `.get` defaults. -/
structure AgentConfig where
  agent_id : String
  agent_type : Option String := none
  supported_tasks : Option (List String) := none
  max_concurrent : Option Nat := none
  performance_metrics : Option (List (String × ℚ)) := none

/-- Agent registration (`register_agent`, lines 214-231): builds a ParallelAgent
with Idle status; an omitted `performance_metrics` key defaults to the EMPTY
dict (line 224 reads `.get('performance_metrics', {})`), which is not `None`, so
the `__post_init__` 1.0-defaults never fire on this path; the record is stored
with `self.agent_pool[agent_id] = agent` (line 228), which overwrites any
existing entry for that id. Returns the agent id and the updated pool. -/
def register_agent (pool : List (String × ParallelAgent)) (cfg : AgentConfig)
    (now : ℚ) : String × List (String × ParallelAgent) :=
  let agent := ParallelAgent.make cfg.agent_id (cfg.agent_type.getD "unknown")
    AgentStatus.idle none (some (cfg.supported_tasks.getD []))
    (cfg.max_concurrent.getD 1) (some (cfg.performance_metrics.getD []))
    now none none
  (cfg.agent_id, dictInsert pool cfg.agent_id agent)

/-- Registration record omitting `performance_metrics`, for claim C6. -/
def c6cfg : AgentConfig :=
  { agent_id := "a1", agent_type := some "file_system",
    supported_tasks := some ["file_operations"], max_concurrent := some 2 }

/-- Counterexample to claim C6 at a concrete registration record that omits
`performance_metrics`: the stored agent's metrics dict is empty, not the claimed
1.0-defaults; and registering the same agent_id again replaces the stored
record (the second record's agent_type wins). -/
theorem c6_register_agent_counterexample :
    ((dictLookup (register_agent [] c6cfg 0).2 "a1").map
        (fun ag => ag.performance_metrics)) = some [] ∧
      (some ([] : List (String × ℚ)) ≠ some defaultMetrics) ∧
      ((dictLookup (register_agent (register_agent [] c6cfg 0).2
          { c6cfg with agent_type := some "replaced" } 5).2 "a1").map
        (fun ag => ag.agent_type)) = some "replaced" := by
  refine ⟨?_, ?_, ?_⟩
  · simp [register_agent, ParallelAgent.make, c6cfg, dictInsert, dictLookup]
  · simp [defaultMetrics]
  · simp [register_agent, ParallelAgent.make, c6cfg, dictInsert, dictLookup]

/-- Claim C6 (amended): for every registration record that omits
`performance_metrics`, `register_agent` stores an agent with Idle status whose
metrics dict is EMPTY (the 1.0 defaults fire only on `None`, which
`register_agent` never passes); and registering an agent_id that is already
present REPLACES the previously stored record (the lookup after the call yields
the newly built agent for any prior pool contents). -/
theorem c6_register_agent_inserts (pool : List (String × ParallelAgent))
    (cfg : AgentConfig) (now : ℚ) (hm : cfg.performance_metrics = none) :
    (register_agent pool cfg now).1 = cfg.agent_id ∧
      ∀ ag, dictLookup (register_agent pool cfg now).2 cfg.agent_id = some ag →
        ag.status = AgentStatus.idle ∧ ag.performance_metrics = [] ∧
          ag.agent_type = cfg.agent_type.getD "unknown" := by
  constructor
  · rfl
  · intro ag hag
    have hag2 : dictLookup (dictInsert pool cfg.agent_id
        (ParallelAgent.make cfg.agent_id (cfg.agent_type.getD "unknown")
          AgentStatus.idle none (some (cfg.supported_tasks.getD []))
          (cfg.max_concurrent.getD 1) (some (cfg.performance_metrics.getD []))
          now none none)) cfg.agent_id = some ag := hag
    rw [dictLookup_dictInsert_self] at hag2
    have := hag2.symm
    rw [Option.some.injEq] at this
    subst this
    refine ⟨rfl, ?_, rfl⟩
    rw [hm]
    rfl

/-- Witness for the amended C6: registering `c6cfg` over a pool that already
binds the same id replaces the record, and the stored agent is Idle with empty
metrics. -/
theorem c6_register_agent_inserts_witness :
    (register_agent (register_agent [] c6cfg 0).2 c6cfg 5).1 = "a1" := by
  have h := (c6_register_agent_inserts (register_agent [] c6cfg 0).2 c6cfg 5 rfl).1
  exact h

/-- Removal predicate of `cleanup_completed_tasks` (lines 602-606): completed_at
is set, the task is older than 24 hours, and its status is Completed or Failed -
Cancelled is NOT in the list on line 605 and is never pruned. -/
def shouldRemoveTask (now : ℚ) (t : ParallelTask) : Bool :=
  match t.completed_at with
  | none => false
  | some c =>
    if 24 * 3600 < now - c then
      if t.status = TaskStatus.completed ∨ t.status = TaskStatus.failed then true
      else false
    else false

/-- Prune step (`cleanup_completed_tasks`, lines 596-614): collect the ids of
removable tasks, then delete those ids from the task table and from the status
index `task_status_stats`. -/
def cleanup_completed_tasks (now : ℚ) (tasks : List (String × ParallelTask))
    (stats : List (String × TaskStatus)) :
    List (String × ParallelTask) × List (String × TaskStatus) :=
  let tasks_to_remove :=
    (tasks.filter (fun p => shouldRemoveTask now p.2)).map (fun p => p.1)
  (tasks.filter (fun p => decide (p.1 ∉ tasks_to_remove)),
    stats.filter (fun p => decide (p.1 ∉ tasks_to_remove)))

/-- A Cancelled task whose completion timestamp is far in the past, used to
refute claim C8's use of "terminal". -/
def c8cancelled : ParallelTask :=
  { mkTask "c" "file_operations" 0 TaskStatus.cancelled 0 [] with
    completed_at := some 0 }

/-- Counterexample to claim C8: a Cancelled task - terminal in the spec's
vocabulary - completed 100000 seconds (nearly 28 hours) ago survives the prune
step, so not every old terminal task is removed. -/
theorem c8_cancelled_survives_counterexample :
    (cleanup_completed_tasks 100000 [("c", c8cancelled)]
        [("c", TaskStatus.cancelled)]).1 = [("c", c8cancelled)] ∧
      (cleanup_completed_tasks 100000 [("c", c8cancelled)]
        [("c", TaskStatus.cancelled)]).2 = [("c", TaskStatus.cancelled)] := by
  constructor <;>
    (norm_num [cleanup_completed_tasks, shouldRemoveTask, c8cancelled, mkTask]
     ; decide)

/-- Entries of a list sharing a key are equal when the keys are duplicate-free. -/
theorem keyNodup_eq {α : Type} {l : List (String × α)}
    (h : (l.map Prod.fst).Nodup) {k : String} {a b : α}
    (ha : (k, a) ∈ l) (hb : (k, b) ∈ l) : a = b := by
  induction l with
  | nil => cases ha
  | cons p rest ih =>
    rcases List.mem_cons.mp ha with ha1 | ha2 <;>
      rcases List.mem_cons.mp hb with hb1 | hb2
    · rw [← ha1] at hb1
      exact (congrArg Prod.snd hb1.symm)
    · exfalso
      apply (List.nodup_cons.mp h).1
      have hk : p.1 = k := by rw [← ha1]
      rw [hk]
      exact List.mem_map.mpr ⟨(k, b), hb2, rfl⟩
    · exfalso
      apply (List.nodup_cons.mp h).1
      have hk : p.1 = k := by rw [← hb1]
      rw [hk]
      exact List.mem_map.mpr ⟨(k, a), ha2, rfl⟩
    · exact ih (List.nodup_cons.mp h).2 ha2 hb2

/-- Claim C8 (amended): after one prune run, every task whose status is
Completed or Failed (Cancelled is never pruned) with completed_at more than 24
hours before now is absent from both the task table and the status index, and
every task whose completed_at lies within the retention window is still
present. The key-uniqueness hypothesis records that Python dict keys are
unique. -/
theorem c8_retention_pruning (now : ℚ) (tasks : List (String × ParallelTask))
    (stats : List (String × TaskStatus))
    (hkeys : (tasks.map Prod.fst).Nodup) :
    (∀ id t, (id, t) ∈ tasks →
      (t.status = TaskStatus.completed ∨ t.status = TaskStatus.failed) →
      ∀ c, t.completed_at = some c → 24 * 3600 < now - c →
        (∀ u, ((id, u) ∈ (cleanup_completed_tasks now tasks stats).1 → False)) ∧
        (∀ st, ((id, st) ∈ (cleanup_completed_tasks now tasks stats).2 →
          False))) ∧
    (∀ id t, (id, t) ∈ tasks →
      ∀ c, t.completed_at = some c → now - c ≤ 24 * 3600 →
        (id, t) ∈ (cleanup_completed_tasks now tasks stats).1) := by
  constructor
  · intro id t hmem hstatus c hc hold
    have hrem : shouldRemoveTask now t = true := by
      simp only [shouldRemoveTask, hc]
      rw [if_pos hold, if_pos hstatus]
    have hidrem : id ∈ (tasks.filter
        (fun p => shouldRemoveTask now p.2)).map (fun p => p.1) :=
      List.mem_map.mpr ⟨(id, t), List.mem_filter.mpr ⟨hmem, hrem⟩, rfl⟩
    constructor
    · intro u hu
      have := (List.mem_filter.mp hu).2
      rw [decide_eq_true_eq] at this
      exact this hidrem
    · intro st hst
      have := (List.mem_filter.mp hst).2
      rw [decide_eq_true_eq] at this
      exact this hidrem
  · intro id t hmem c hc hyoung
    apply List.mem_filter.mpr
    refine ⟨hmem, ?_⟩
    rw [decide_eq_true_eq]
    intro hidrem
    rcases List.mem_map.mp hidrem with ⟨p, hpmem, hpid⟩
    rcases List.mem_filter.mp hpmem with ⟨hpmem2, hprem⟩
    have hpeq : p = (id, p.2) := by
      rw [Prod.ext_iff]
      exact ⟨hpid, rfl⟩
    have hp2 : (id, p.2) ∈ tasks := by
      rw [← hpeq]
      exact hpmem2
    have hpt : p.2 = t := keyNodup_eq hkeys hp2 hmem
    rw [hpt] at hprem
    simp only [shouldRemoveTask, hc] at hprem
    rw [if_neg (by linarith)] at hprem
    exact Bool.noConfusion hprem

/-- Concrete table for the C8 witness: one Completed task finished at time 0 and
one finished an hour before the prune at time 100000. -/
def c8old : ParallelTask :=
  { mkTask "old" "file_operations" 0 TaskStatus.completed 0 [] with
    completed_at := some 0 }

/-- The young Completed task of the C8 witness, finished 3600 seconds ago. -/
def c8young : ParallelTask :=
  { mkTask "young" "file_operations" 0 TaskStatus.completed 0 [] with
    completed_at := some 96400 }

/-- Witness for the amended C8: pruning at time 100000 removes the task that
completed at time 0 (absent from table and index) and keeps the task that
completed 3600 seconds earlier. -/
theorem c8_retention_pruning_witness :
    (("old", c8old) ∈ (cleanup_completed_tasks 100000
        [("old", c8old), ("young", c8young)] [("old", TaskStatus.completed),
        ("young", TaskStatus.completed)]).1 → False) ∧
      ("young", c8young) ∈ (cleanup_completed_tasks 100000
        [("old", c8old), ("young", c8young)] [("old", TaskStatus.completed),
        ("young", TaskStatus.completed)]).1 := by
  have hkeys : ((([("old", c8old), ("young", c8young)]) :
      List (String × ParallelTask)).map Prod.fst).Nodup := by
    simp
  have h := c8_retention_pruning 100000 [("old", c8old), ("young", c8young)]
    [("old", TaskStatus.completed), ("young", TaskStatus.completed)] hkeys
  constructor
  · intro hmem
    exact (h.1 "old" c8old (by simp) (Or.inl rfl) 0 rfl (by norm_num)).1
      c8old hmem
  · exact h.2 "young" c8young (by simp) 96400 rfl (by norm_num)

/-- Eligibility filter of `find_suitable_agent` (lines 419-421): Idle status,
supported task type, and `len(agent.current_task) < max_concurrent_tasks`. The
source compares the LENGTH of the current-task string with the concurrency
bound; when `current_task` is `None` (the normal state of an Idle agent) the
`len` call raises TypeError, modelled as `.error ()`. -/
def agentEligible (agent : ParallelAgent) (task_type : String) :
    Except Unit Bool :=
  if agent.status = AgentStatus.idle then
    if task_type ∈ agent.supported_task_types then
      match agent.current_task with
      | none => .error ()
      | some ct => .ok (decide (ct.length < agent.max_concurrent_tasks))
    else .ok false
  else .ok false

/-- Suitability score (`calculate_agent_suitability_score`, lines 434-459):
0.4 for a supported task type; plus the FIRST value of the metrics dict times
0.3 when the dict is non-empty (the inner `else 1.0` on line 444 is dead code:
the whole term is guarded by `if agent.performance_metrics`, so an empty dict
contributes nothing); plus 0.2 times one minus the current load, where the load
is `len(agent.current_task)` - the character count of the current-task string,
TypeError on `None` - divided by `max(max_concurrent_tasks, 1.0)`; plus 0.1
times the success fraction over the most recent five history entries (nothing
when the history is empty). -/
def calculate_agent_suitability_score (agent : ParallelAgent)
    (task_type : String) : Except Unit ℚ :=
  match agent.current_task with
  | none => .error ()
  | some ct =>
    .ok ((if task_type ∈ agent.supported_task_types then (0.4 : ℚ) else 0) +
      (if agent.performance_metrics ≠ [] then
        ((agent.performance_metrics.head?.map Prod.snd).getD 1.0) * 0.3
      else 0) +
      (1.0 - (ct.length : ℚ) / max (agent.max_concurrent_tasks : ℚ) 1.0) * 0.2 +
      (if agent.task_history ≠ [] then
        ((((agent.task_history.drop (agent.task_history.length - 5)).filter
            (fun e => e.success)).length : ℚ) /
          (((agent.task_history.drop (agent.task_history.length - 5)).length : ℚ)))
          * 0.1
      else 0))

/-- The scored eligible-agent list built by the loop of lines 416-425, in pool
iteration (insertion) order; a TypeError raised by the eligibility test or by
the score aborts the whole call. -/
def collectSuitable (task_type : String) :
    List ParallelAgent → Except Unit (List (ℚ × ParallelAgent))
  | [] => .ok []
  | a :: rest =>
    match agentEligible a task_type with
    | .error e => .error e
    | .ok false => collectSuitable task_type rest
    | .ok true =>
      match calculate_agent_suitability_score a task_type with
      | .error e => .error e
      | .ok sc =>
        match collectSuitable task_type rest with
        | .error e => .error e
        | .ok l => .ok ((sc, a) :: l)

/-- First maximal element of the scored list: the head of the stable descending
sort of lines 427-430 (`sort(key=score, reverse=True)` then `[0]`) is the
earliest entry with maximal score, which this recursion computes directly. -/
def pickBest : List (ℚ × ParallelAgent) → Option (ℚ × ParallelAgent)
  | [] => none
  | p :: rest =>
    match pickBest rest with
    | none => some p
    | some q => if q.1 > p.1 then some q else some p

/-- Best-agent selection (`find_suitable_agent`, lines 414-432): score the
eligible agents, return the highest-scoring one, or none when no agent
qualifies. -/
def find_suitable_agent (pool : List ParallelAgent) (task_type : String) :
    Except Unit (Option ParallelAgent) :=
  (collectSuitable task_type pool).map (fun l => (pickBest l).map Prod.snd)

/-- A selected entry belongs to the scored list. -/
theorem pickBest_mem (l : List (ℚ × ParallelAgent)) (q : ℚ × ParallelAgent)
    (h : pickBest l = some q) : q ∈ l := by
  induction l generalizing q with
  | nil => exact Option.noConfusion h
  | cons p rest ih =>
    simp only [pickBest] at h
    rcases hr : pickBest rest with _ | r
    · simp only [hr, Option.some.injEq] at h
      rw [← h]
      exact List.mem_cons_self p rest
    · simp only [hr] at h
      by_cases hgt : r.1 > p.1
      · rw [if_pos hgt, Option.some.injEq] at h
        rw [← h]
        exact List.mem_cons_of_mem p (ih r hr)
      · rw [if_neg hgt, Option.some.injEq] at h
        rw [← h]
        exact List.mem_cons_self p rest

/-- Nothing is selected only from the empty scored list. -/
theorem pickBest_eq_none (l : List (ℚ × ParallelAgent))
    (h : pickBest l = none) : l = [] := by
  cases l with
  | nil => rfl
  | cons p rest =>
    exfalso
    simp only [pickBest] at h
    rcases hr : pickBest rest with _ | r
    · simp only [hr] at h
      exact Option.noConfusion h
    · simp only [hr] at h
      by_cases hgt : r.1 > p.1
      · rw [if_pos hgt] at h
        exact Option.noConfusion h
      · rw [if_neg hgt] at h
        exact Option.noConfusion h

/-- The selected entry's score is maximal over the scored list. -/
theorem pickBest_max (l : List (ℚ × ParallelAgent)) (q : ℚ × ParallelAgent)
    (h : pickBest l = some q) : ∀ p ∈ l, p.1 ≤ q.1 := by
  induction l generalizing q with
  | nil => intro p hp; cases hp
  | cons x rest ih =>
    intro p hp
    simp only [pickBest] at h
    rcases hr : pickBest rest with _ | r
    · have hrest : rest = [] := pickBest_eq_none rest hr
      subst hrest
      simp only [hr, Option.some.injEq] at h
      rw [← h]
      rcases List.mem_cons.mp hp with rfl | hmem
      · exact le_refl _
      · cases hmem
    · simp only [hr] at h
      by_cases hgt : r.1 > x.1
      · rw [if_pos hgt, Option.some.injEq] at h
        rw [← h]
        rcases List.mem_cons.mp hp with rfl | hmem
        · exact le_of_lt hgt
        · exact ih r hr p hmem
      · rw [if_neg hgt, Option.some.injEq] at h
        rw [← h]
        rcases List.mem_cons.mp hp with rfl | hmem
        · exact le_refl _
        · exact le_trans (ih r hr p hmem) (not_lt.mp hgt)

/-- Every entry of the scored list is an eligible pool agent with its score. -/
theorem collectSuitable_sound (tt : String) (pool : List ParallelAgent)
    (l : List (ℚ × ParallelAgent)) (h : collectSuitable tt pool = .ok l) :
    ∀ p ∈ l, p.2 ∈ pool ∧ agentEligible p.2 tt = .ok true ∧
      calculate_agent_suitability_score p.2 tt = .ok p.1 := by
  induction pool generalizing l with
  | nil =>
    simp only [collectSuitable, Except.ok.injEq] at h
    subst h
    intro p hp
    cases hp
  | cons a rest ih =>
    intro p hp
    rcases helig : agentEligible a tt with e | b
    · rw [collectSuitable, helig] at h
      exact Except.noConfusion h
    · cases b
      · rw [collectSuitable, helig] at h
        have hr := ih l h p hp
        exact ⟨List.mem_cons_of_mem a hr.1, hr.2.1, hr.2.2⟩
      · rcases hsc : calculate_agent_suitability_score a tt with e | sc
        · rw [collectSuitable, helig, hsc] at h
          exact Except.noConfusion h
        · rcases hrec : collectSuitable tt rest with e | lr
          · rw [collectSuitable, helig, hsc, hrec] at h
            exact Except.noConfusion h
          · rw [collectSuitable, helig, hsc, hrec, Except.ok.injEq] at h
            subst h
            rcases List.mem_cons.mp hp with rfl | hmem
            · exact ⟨List.mem_cons_self a rest, helig, hsc⟩
            · have hr := ih lr hrec p hmem
              exact ⟨List.mem_cons_of_mem a hr.1, hr.2.1, hr.2.2⟩

/-- Every eligible pool agent appears in the scored list with its score. -/
theorem collectSuitable_complete (tt : String) (pool : List ParallelAgent)
    (l : List (ℚ × ParallelAgent)) (h : collectSuitable tt pool = .ok l) :
    ∀ b ∈ pool, agentEligible b tt = .ok true →
      ∃ s, calculate_agent_suitability_score b tt = .ok s ∧ (s, b) ∈ l := by
  induction pool generalizing l with
  | nil =>
    intro b hb
    cases hb
  | cons a rest ih =>
    intro b hb heligb
    rcases List.mem_cons.mp hb with rfl | hmem
    · rcases hsc : calculate_agent_suitability_score b tt with e | sc
      · rw [collectSuitable, heligb, hsc] at h
        exact Except.noConfusion h
      · rcases hrec : collectSuitable tt rest with e | lr
        · rw [collectSuitable, heligb, hsc, hrec] at h
          exact Except.noConfusion h
        · rw [collectSuitable, heligb, hsc, hrec, Except.ok.injEq] at h
          subst h
          exact ⟨sc, rfl, List.mem_cons_self _ _⟩
    · rcases helig : agentEligible a tt with e | bb
      · rw [collectSuitable, helig] at h
        exact Except.noConfusion h
      · cases bb
        · rw [collectSuitable, helig] at h
          exact ih l h b hmem heligb
        · rcases hsc : calculate_agent_suitability_score a tt with e | sc
          · rw [collectSuitable, helig, hsc] at h
            exact Except.noConfusion h
          · rcases hrec : collectSuitable tt rest with e | lr
            · rw [collectSuitable, helig, hsc, hrec] at h
              exact Except.noConfusion h
            · rw [collectSuitable, helig, hsc, hrec, Except.ok.injEq] at h
              subst h
              rcases ih lr hrec b hmem heligb with ⟨s, hs, hsl⟩
              exact ⟨s, hs, List.mem_cons_of_mem _ hsl⟩

/-- Claim C4 (amended): when `find_suitable_agent` returns an agent, that agent
is an eligible pool member whose suitability score is maximal among all
eligible agents (eligibility per the source: Idle, supported type, and the
current-task string length below the concurrency bound); when it returns none,
no pool agent is eligible. The score of an eligible agent is the one computed
by `calculate_agent_suitability_score`, in which an EMPTY metrics dict
contributes 0 rather than the claimed 0.3 x 1.0. -/
theorem c4_find_suitable_agent (pool : List ParallelAgent) (tt : String) :
    (∀ a, find_suitable_agent pool tt = .ok (some a) →
      a ∈ pool ∧ agentEligible a tt = .ok true ∧
        ∃ sa, calculate_agent_suitability_score a tt = .ok sa ∧
          ∀ b ∈ pool, agentEligible b tt = .ok true →
            ∀ sb, calculate_agent_suitability_score b tt = .ok sb → sb ≤ sa) ∧
    (find_suitable_agent pool tt = .ok none →
      ∀ b ∈ pool, agentEligible b tt = .ok true → False) := by
  constructor
  · intro a h
    rcases hcol : collectSuitable tt pool with e | l
    · rw [find_suitable_agent, hcol] at h
      exact Except.noConfusion h
    · rw [find_suitable_agent, hcol] at h
      have h2 : (pickBest l).map Prod.snd = some a := by
        have h3 : Except.ok ((pickBest l).map Prod.snd) =
            (Except.ok (some a) : Except Unit (Option ParallelAgent)) := h
        rw [Except.ok.injEq] at h3
        exact h3
      rcases Option.map_eq_some'.mp h2 with ⟨q, hq, hqa⟩
      have hqsound := collectSuitable_sound tt pool l hcol q
        (pickBest_mem l q hq)
      refine ⟨hqa ▸ hqsound.1, hqa ▸ hqsound.2.1, q.1,
        hqa ▸ hqsound.2.2, ?_⟩
      intro b hb heligb sb hsb
      rcases collectSuitable_complete tt pool l hcol b hb heligb
        with ⟨s, hs, hsl⟩
      have hss : s = sb := by
        rw [hs] at hsb
        rw [Except.ok.injEq] at hsb
        exact hsb
      rw [← hss]
      exact pickBest_max l q hq (s, b) hsl
  · intro h b hb heligb
    rcases hcol : collectSuitable tt pool with e | l
    · rw [find_suitable_agent, hcol] at h
      exact Except.noConfusion h
    · rw [find_suitable_agent, hcol] at h
      have h2 : (pickBest l).map Prod.snd = none := by
        have h3 : Except.ok ((pickBest l).map Prod.snd) =
            (Except.ok (none : Option ParallelAgent) : Except Unit _) := h
        rw [Except.ok.injEq] at h3
        exact h3
      have hlnil : l = [] :=
        pickBest_eq_none l (Option.map_eq_none'.mp h2)
      rcases collectSuitable_complete tt pool l hcol b hb heligb
        with ⟨s, _, hsl⟩
      rw [hlnil] at hsl
      cases hsl

/-- Idle agent with an EMPTY metrics dict, a current-task string of length one
and a concurrency bound of two: eligible for `file_operations` work. -/
def c4agent : ParallelAgent :=
  { agent_id := "b1", agent_type := "file_system", status := AgentStatus.idle,
    current_task := some "x",
    supported_task_types := ["file_operations"],
    max_concurrent_tasks := 2,
    performance_metrics := [],
    last_activity := 0, task_history := [], resource_usage := [] }

/-- The suitability-score formula exactly as claim C4 words it - with 1.0
substituted for the first metric value when the metrics map is empty - defined
from the claim's words only, to compare against the code's score. `load` stands
for the claim's `current_assigned / max_concurrent` ratio. -/
def claimC4Score (agent : ParallelAgent) (load : ℚ) : ℚ :=
  0.4 + 0.3 * ((agent.performance_metrics.head?.map Prod.snd).getD 1.0) +
    0.2 * (1 - load) +
    0.1 * (if agent.task_history ≠ [] then
      (((agent.task_history.drop (agent.task_history.length - 5)).filter
          (fun e => e.success)).length : ℚ) /
        ((agent.task_history.drop (agent.task_history.length - 5)).length : ℚ)
    else 0)

/-- Counterexample to claim C4 as stated: `c4agent` is eligible with load 1/2,
the code computes score 1/2 (the empty metrics dict contributes nothing), but
the claim's formula yields 4/5 (it awards 0.3 x 1.0 for an empty map), and the
two differ. -/
theorem c4_empty_metrics_counterexample :
    agentEligible c4agent "file_operations" = .ok true ∧
      calculate_agent_suitability_score c4agent "file_operations" =
        .ok (1 / 2) ∧
      claimC4Score c4agent (1 / 2) = 4 / 5 ∧ ¬((1 : ℚ) / 2 = 4 / 5) := by
  refine ⟨?_, ?_, ?_, by norm_num⟩
  · norm_num [agentEligible, c4agent, show ("x" : String).length = 1 from rfl]
  · norm_num [calculate_agent_suitability_score, c4agent,
      show ("x" : String).length = 1 from rfl]
  · norm_num [claimC4Score, c4agent]

/-- Witness for the amended C4 on the one-agent pool `[c4agent]`: the returned
agent is a member of the pool and is eligible. -/
theorem c4_find_suitable_agent_witness :
    c4agent ∈ [c4agent] ∧ agentEligible c4agent "file_operations" = .ok true := by
  have h := (c4_find_suitable_agent [c4agent] "file_operations").1 c4agent (by
    norm_num [find_suitable_agent, collectSuitable, pickBest, agentEligible,
      calculate_agent_suitability_score, Except.map, c4agent,
      show ("x" : String).length = 1 from rfl])
  exact ⟨h.1, h.2.1⟩

/-- Scheduler state: the task table (`self.tasks`), the status index
(`self.task_status_stats`), the priority queue in pop order, the resource pool,
the agent pool and the scheduled-task counter (the only member of
`schedule_stats` any embedded operation touches: `execute_task`'s counter
updates on lines 281-298 are unreachable, see `execute_task_effect`). The
Python queue stores task objects aliased with the table entries; the embedding
stores ids and reads the record through the table. -/
structure SchedulerState where
  tasks : List (String × ParallelTask)
  task_status_stats : List (String × TaskStatus)
  task_queue : List (Int × String)
  resource_pool : ResourcePool
  agent_pool : List (String × ParallelAgent)
  total_scheduled : Nat
deriving Repr

/-- Priority-queue insertion keeping the list in pop order (smallest key first,
ties after existing entries, matching heap stability for distinct keys; equal
keys would make Python compare the task objects and raise TypeError, which no
scenario below exercises). -/
def queuePut (q : List (Int × String)) (e : Int × String) : List (Int × String) :=
  match q with
  | [] => [e]
  | x :: rest => if e.1 < x.1 then e :: x :: rest else x :: queuePut rest e

/-- Task submission record (the dict consumed by `schedule_task`); optional
fields model dict keys read with `.get` defaults. -/
structure TaskData where
  task_type : Option String := none
  command : Option String := none
  args : Option (List String) := none
  kwargs : Option (List (String × String)) := none
  priority : Option Int := none
  dependencies : Option (List String) := none
  max_wait_time : Option ℚ := none
  resource_requirements : Option (List (String × ℚ)) := none

/-- Task submission (`schedule_task`, lines 233-260): the id is the `strftime`
text of the current second plus the CURRENT SIZE of the task table (line 235,
`len(self.tasks)`); the Pending task is stored in the table and status index,
the scheduled counter grows, and `(-priority, id)` enters the queue. -/
def schedule_task (st : SchedulerState) (nowText : String) (now : ℚ)
    (td : TaskData) : String × SchedulerState :=
  let task_id := "task_" ++ nowText ++ "_" ++ toString st.tasks.length
  let task : ParallelTask :=
    { task_id := task_id
      task_type := td.task_type.getD "unknown"
      command := td.command.getD ""
      args := td.args.getD []
      kwargs := td.kwargs.getD []
      priority := td.priority.getD 0
      status := TaskStatus.pending
      created_at := now
      dependencies := td.dependencies.getD []
      max_wait_time := td.max_wait_time.getD 604800
      resource_requirements := td.resource_requirements.getD [] }
  (task_id,
    { st with
      tasks := dictInsert st.tasks task_id task
      task_status_stats := dictInsert st.task_status_stats task_id task.status
      total_scheduled := st.total_scheduled + 1
      task_queue := queuePut st.task_queue (-task.priority, task_id) })

/-- Net effect of one `execute_task` call (lines 262-300) on its task record.
Line 266 marks the task Running and line 267 stamps `started_at`; line 268 then
reads the undefined name `task_id` and raises NameError; the handler (lines
291-294) marks the task Failed with the error text and stamps `completed_at`;
line 295's log f-string reads `task_id` again, so a NameError escapes before
the status index or the failure counters are touched. Inside
`process_ready_tasks` the call runs on an executor thread and the escaping
exception is swallowed: the guarded `future.result()` on line 573 never runs
because `hasattr(future, '_task_id')` on line 567 is always false. -/
def execute_task_effect (now : ℚ) (t : ParallelTask) : ParallelTask :=
  { t with
    status := TaskStatus.failed
    started_at := some now
    completed_at := some now
    error := some "name 'task_id' is not defined" }

/-- Queue drain of `process_ready_tasks` (lines 541-550): pop entries while the
resource pool admits the task's requirements (the pool is not yet modified
during the drain); on the first inadmissible task, push it back and stop.
Requirements are read through the table; every queued id is present in the
table in the states proved about below. -/
def drainQueue (pool : ResourcePool) (table : List (String × ParallelTask)) :
    List (Int × String) → List String × List (Int × String)
  | [] => ([], [])
  | (p, tid) :: rest =>
    if can_allocate_task pool
        (((dictLookup table tid).map
          (fun t => t.resource_requirements)).getD []) then
      let r := drainQueue pool table rest
      (tid :: r.1, r.2)
    else ([], queuePut rest (p, tid))

/-- Allocation loop of `process_ready_tasks` (lines 556-560): for each ready
task in order, `allocate_resources` takes a worker and marks the task Running
(line 153) when one is free; only successfully allocated tasks are submitted
for execution. Returns the new pool, the updated table and the submitted ids. -/
def allocateReady (pool : ResourcePool) (table : List (String × ParallelTask)) :
    List String → ResourcePool × List (String × ParallelTask) × List String
  | [] => (pool, table, [])
  | tid :: rest =>
    let r := allocate_resources pool
    if r.2 then
      let rec2 := allocateReady r.1
        (dictUpdate table tid (fun t => { t with status := TaskStatus.running }))
        rest
      (rec2.1, rec2.2.1, tid :: rec2.2.2)
    else
      let rec2 := allocateReady r.1 table rest
      (rec2.1, rec2.2.1, rec2.2.2)

/-- Agent bookkeeping after a task finishes (`update_agent_status_after_task`,
lines 633-645): every agent whose current assignment is the finished task's id
is reset to Idle with no assignment, and when both timestamps are present its
metrics are updated with the elapsed time and the Completed flag. -/
def update_agent_status_after_task (agents : List (String × ParallelAgent))
    (t : ParallelTask) : List (String × ParallelAgent) :=
  agents.map (fun p =>
    if p.2.current_task = some t.task_id then
      let ag := { p.2 with current_task := none, status := AgentStatus.idle }
      match t.started_at, t.completed_at with
      | some st, some ct =>
        (p.1, update_agent_metrics ag (ct - st)
          (decide (t.status = TaskStatus.completed)))
      | _, _ => (p.1, ag)
    else p)

/-- Release loop of `process_ready_tasks` (lines 578-583): for EVERY ready task
- whether or not its allocation succeeded - `release_resources` increments the
worker count unconditionally (line 160) and promotes a still-Running task to
Completed (lines 161-162), then the agent bookkeeping runs. An id missing from
the table still releases a worker (the Python queue aliases the object). -/
def releaseReady (pool : ResourcePool) (table : List (String × ParallelTask))
    (agents : List (String × ParallelAgent)) :
    List String →
      ResourcePool × List (String × ParallelTask) × List (String × ParallelAgent)
  | [] => (pool, table, agents)
  | tid :: rest =>
    match dictLookup table tid with
    | some t =>
      let r := release_resources pool t
      releaseReady r.1 (dictInsert table tid r.2)
        (update_agent_status_after_task agents r.2) rest
    | none =>
      releaseReady { pool with available_workers := pool.available_workers + 1 }
        table agents rest

/-- Admission phase of `process_ready_tasks` (lines 541-560): drain the
admissible queue prefix, then allocate workers; allocation marks tasks Running,
and NO dependency check occurs anywhere on this path (`are_dependencies_met` is
never consulted by the scheduler loop). Returns the updated state, the ready
ids and the successfully submitted ids. -/
def processReadyAdmission (st : SchedulerState) :
    SchedulerState × List String × List String :=
  let d := drainQueue st.resource_pool st.tasks st.task_queue
  let al := allocateReady st.resource_pool st.tasks d.1
  ({ st with task_queue := d.2, resource_pool := al.1, tasks := al.2.1 },
    d.1, al.2.2)

/-- One full tick of `process_ready_tasks` (lines 537-583): admission, the net
effect of the submitted tasks' `execute_task` calls (applied in submission
order; the completion-handling block of lines 563-576 never fires, see
`execute_task_effect`), and the release loop over ALL ready tasks. -/
def process_ready_tasks (now : ℚ) (st : SchedulerState) : SchedulerState :=
  let adm := processReadyAdmission st
  let table2 := adm.2.2.foldl
    (fun tb tid => dictUpdate tb tid (execute_task_effect now)) adm.1.tasks
  let rel := releaseReady adm.1.resource_pool table2 adm.1.agent_pool adm.2.1
  { adm.1 with resource_pool := rel.1, tasks := rel.2.1, agent_pool := rel.2.2 }

/-- String disequalities of the concrete scenarios, precomputed so that simp
can collapse the dictionary branches. -/
theorem str_t1_ne_t2 : (("t1" : String) = "t2") = False := eq_false (by decide)

/-- Converse direction of the scenario key disequality. -/
theorem str_t2_ne_t1 : (("t2" : String) = "t1") = False := eq_false (by decide)

/-- Memory snapshot for the scheduler scenarios: 100 MiB total, half used; a
default 10 MB request projects to 60 percent, below the 80 percent ceiling. -/
def demoMemory : MemoryStats :=
  { total := 104857600, available := 52428800, used := 52428800, percent := 50 }

/-- Pending dependency task of the C1 scenario. -/
def c1dep : ParallelTask := mkTask "t1" "file_operations" 0 TaskStatus.pending 0 []

/-- Queued task of the C1 scenario, declaring the unmet dependency `t1`. -/
def c1task : ParallelTask :=
  mkTask "t2" "file_operations" 1 TaskStatus.pending 0 ["t1"]

/-- C1 scenario: `t2` (depending on the still-Pending `t1`) sits at the queue
head with a worker free. -/
def c1state : SchedulerState :=
  { tasks := [("t1", c1dep), ("t2", c1task)]
    task_status_stats := [("t1", TaskStatus.pending), ("t2", TaskStatus.pending)]
    task_queue := [(-1, "t2")]
    resource_pool :=
      { max_workers := 4, available_workers := 1, memory_stats := demoMemory }
    agent_pool := []
    total_scheduled := 2 }

/-- Claim C1 fails on the code: in `c1state` the queued task `t2` declares
dependency `t1`, whose record is Pending (not Completed), yet the admission
phase of `process_ready_tasks` sets `t2` Running - neither the drain nor the
allocation consults `are_dependencies_met`, so the dependency-gating property
is violated at this state. -/
theorem c1_runs_despite_unmet_dependency :
    ((dictLookup c1state.tasks "t2").map (fun t => t.dependencies))
        = some ["t1"] ∧
      ((dictLookup c1state.tasks "t1").map (fun t => t.status))
        = some TaskStatus.pending ∧
      ((dictLookup (processReadyAdmission c1state).1.tasks "t2").map
        (fun t => t.status)) = some TaskStatus.running ∧
      ((dictLookup (processReadyAdmission c1state).1.tasks "t1").map
        (fun t => t.status)) = some TaskStatus.pending := by
  refine ⟨by norm_num [c1state, c1task, mkTask, dictLookup, str_t1_ne_t2],
    by norm_num [c1state, c1dep, mkTask, dictLookup, str_t1_ne_t2], ?_, ?_⟩ <;>
  norm_num [processReadyAdmission, drainQueue, allocateReady,
    allocate_resources, can_allocate_task, dictLookup, dictUpdate, dictInsert,
    queuePut, c1state, c1dep, c1task, mkTask, demoMemory, str_t1_ne_t2,
    str_t2_ne_t1]

/-- First task of the C2 scenario (priority 2, empty requirements). -/
def c2taskA : ParallelTask :=
  mkTask "t1" "file_operations" 2 TaskStatus.pending 0 []

/-- Second task of the C2 scenario (priority 1, empty requirements). -/
def c2taskB : ParallelTask :=
  mkTask "t2" "file_operations" 1 TaskStatus.pending 0 []

/-- C2 scenario: a worker budget of ONE and two admissible queued tasks. -/
def c2state : SchedulerState :=
  { tasks := [("t1", c2taskA), ("t2", c2taskB)]
    task_status_stats := [("t1", TaskStatus.pending), ("t2", TaskStatus.pending)]
    task_queue := [(-2, "t1"), (-1, "t2")]
    resource_pool :=
      { max_workers := 1, available_workers := 1, memory_stats := demoMemory }
    agent_pool := []
    total_scheduled := 2 }

/-- Claim C2 fails on the code: one tick of `process_ready_tasks` on `c2state`
drains both tasks (the pool is unchanged during the drain), allocates a worker
only to `t1`, but the release loop of lines 578-580 iterates over ALL ready
tasks, so `t2` - whose allocation FAILED - also gets a release: afterwards
`available_workers = 2` exceeds the budget `max_workers = 1`. -/
theorem c2_release_exceeds_budget :
    (process_ready_tasks 10 c2state).resource_pool.available_workers = 2 ∧
      (process_ready_tasks 10 c2state).resource_pool.max_workers = 1 := by
  constructor <;>
  norm_num [process_ready_tasks, processReadyAdmission, drainQueue,
    allocateReady, allocate_resources, releaseReady, release_resources,
    update_agent_status_after_task, execute_task_effect, can_allocate_task,
    dictLookup, dictUpdate, dictInsert, queuePut, c2state, c2taskA, c2taskB,
    mkTask, demoMemory, str_t1_ne_t2, str_t2_ne_t1]

/-- Key disequality of the C9 scenario. -/
theorem str_taskx_ne_taskid :
    (("task_x" : String) = "task_20260101_120000_1") = False :=
  eq_false (by decide)

/-- Converse key disequality of the C9 scenario. -/
theorem str_taskid_ne_taskx :
    (("task_20260101_120000_1" : String) = "task_x") = False :=
  eq_false (by decide)

/-- Old completed task of the C9 scenario, finished at time 0. -/
def c9old : ParallelTask :=
  { mkTask "task_x" "file_operations" 0 TaskStatus.completed 0 [] with
    completed_at := some 0 }

/-- C9 scenario: the table holds one old completed task. -/
def c9state : SchedulerState :=
  { tasks := [("task_x", c9old)]
    task_status_stats := [("task_x", TaskStatus.completed)]
    task_queue := []
    resource_pool :=
      { max_workers := 1, available_workers := 1, memory_stats := demoMemory }
    agent_pool := []
    total_scheduled := 1 }

/-- Prune call of the scheduler loop (line 528) on the scheduler state. -/
def cleanupState (now : ℚ) (st : SchedulerState) : SchedulerState :=
  let r := cleanup_completed_tasks now st.tasks st.task_status_stats
  { st with tasks := r.1, task_status_stats := r.2 }

/-- Claim C9 fails on the code: two `schedule_task` calls within the same
wall-clock second (identical strftime text `20260101_120000`), separated by a
prune that removes the old completed task, return the SAME task id: the id is
the second's text plus the CURRENT table size (line 235), and the prune shrinks
the table back to its previous size. -/
theorem c9_duplicate_task_ids :
    (schedule_task c9state "20260101_120000" 200000 {}).1 =
      (schedule_task (cleanupState 200000
          (schedule_task c9state "20260101_120000" 200000 {}).2)
        "20260101_120000" 200000 {}).1 ∧
      (schedule_task c9state "20260101_120000" 200000 {}).1 =
        "task_20260101_120000_1" := by
  constructor <;>
  norm_num [schedule_task, cleanupState, cleanup_completed_tasks,
    shouldRemoveTask, dictInsert, queuePut, c9state, c9old, mkTask,
    str_taskx_ne_taskid, str_taskid_ne_taskx,
    show ("task_" ++ "20260101_120000" ++ "_" ++ toString (1 : Nat))
      = "task_20260101_120000_1" from rfl]
